import Mathlib

/-!
Verification of the data-cleaning and metric-derivation logic of
`residential_schools_dash.py` (school infrastructure dashboard).

The script's per-cell cleaning, department classification, ratio
derivation, fulfillment summary, KPI and ranking logic are embedded as
executable Lean definitions over `String`, `Int` and `ℚ` (pandas float
arithmetic is modelled exactly by rationals; `NaN` cells are modelled by
`Option`).  Python's `str.lower`/`str.upper`/`str.strip` are modelled on
the ASCII fragment the survey data uses, via `Char.toLower`/
`Char.toUpper`/`Char.isWhitespace`.
-/

namespace ResidentialSchools

/-- Python `str.lower()` over the characters of a string (ASCII fragment). -/
def pyLower (l : List Char) : List Char := l.map Char.toLower

/-- Python `str.upper()` over the characters of a string (ASCII fragment). -/
def pyUpper (l : List Char) : List Char := l.map Char.toUpper

/-- Python `str.strip()`: drop whitespace from both ends. -/
def pyStrip (l : List Char) : List Char :=
  ((l.dropWhile Char.isWhitespace).reverse.dropWhile Char.isWhitespace).reverse

/-- The Yes/No cell cleaner, from
`df[col].astype(str).str.lower().str.strip().apply(lambda x: 'yes' if 'yes' in x else ('no' if 'no' in x else x))`
(source lines 53-55).  Python's `in` on strings is substring containment,
i.e. `List.IsInfix` on the character lists. -/
def cleanYesNo (s : String) : String :=
  let x := pyStrip (pyLower s.data)
  if ['y', 'e', 's'] <:+: x then "yes"
  else if ['n', 'o'] <:+: x then "no"
  else String.mk x

/-- The character class kept by `str.replace(r'[^0-9\.\-]', '', regex=True)`
(source line 60): digits, period, hyphen. -/
def keepNumChar (c : Char) : Bool := c.isDigit || c == '.' || c == '-'

/-- Value of a list of decimal digit characters read left to right. -/
def digitsToNat (l : List Char) : Nat :=
  l.foldl (fun a c => 10 * a + (c.toNat - 48)) 0

/-- Value of a fractional digit string: `fracVal "25" = 0.25`. -/
def fracVal : List Char → ℚ
  | [] => 0
  | c :: cs => (((c.toNat - 48 : Nat) : ℚ) + fracVal cs) / 10

/-- `pd.to_numeric(·, errors='coerce')` on an unsigned string over the
alphabet of digits and periods: defined (`some`) exactly when every
character is a digit or a period, at least one digit is present, and at
most one period occurs; the value is integer part plus fractional part.
Inputs such as `""`, `"."` and `"1.2.3"` coerce to `none` (pandas `NaN`). -/
def parseUnsigned (l : List Char) : Option ℚ :=
  if (l.all fun c => c.isDigit || c == '.') ∧ (l.any Char.isDigit) ∧ l.count '.' ≤ 1 then
    some ((digitsToNat (l.takeWhile fun c => c ≠ '.') : ℚ) +
      fracVal ((l.dropWhile fun c => c ≠ '.').drop 1))
  else none

/-- `pd.to_numeric(·, errors='coerce')` including an optional leading sign. -/
def pdToNumeric (l : List Char) : Option ℚ :=
  match l with
  | '-' :: rest => (parseUnsigned rest).map (fun q => -q)
  | '+' :: rest => parseUnsigned rest
  | _ => parseUnsigned l

/-- numpy `astype(int)` on a (finite) float value: truncation toward zero. -/
def truncQ (q : ℚ) : Int := q.num.tdiv q.den

/-- The string fed to `pd.to_numeric` by the numeric cleaner (source lines
60-61): strip every character outside `[0-9.\-]`; take the segment before
the first hyphen (`split('-')[0]`), then before the first `'$'`
(`split('$')[0]`, a no-op since `'$'` was already stripped); `strip()`. -/
def numSeg (s : String) : List Char :=
  pyStrip (((s.data.filter keepNumChar).takeWhile fun c => c ≠ '-').takeWhile fun c => c ≠ '$')

/-- The numeric cell cleaner (source lines 60-62): segment extraction,
`pd.to_numeric(..., errors='coerce')`, `fillna(0)`, `astype(int)`. -/
def cleanNumeric (s : String) : Int :=
  match pdToNumeric (numSeg s) with
  | none => 0
  | some q => truncQ q

/-- Rational-arithmetic-free evaluation form of `cleanNumeric`: on a valid
segment the truncated value is just the integer part read as a natural
number (`cleanNumeric_eq_fast`). -/
def cleanNumericFast (s : String) : Int :=
  if ((numSeg s).all fun c => c.isDigit || c == '.') ∧ ((numSeg s).any Char.isDigit) ∧
      (numSeg s).count '.' ≤ 1 then
    (digitsToNat ((numSeg s).takeWhile fun c => c ≠ '.') : Int)
  else 0

/-- `get_department` (source lines 31-36): ordered case-insensitive prefix
test on the school name. -/
def get_department (school_name : String) : String :=
  let name := pyUpper school_name.data
  if ['K', 'G', 'B', 'V'] <+: name then "KGBV (Girls)"
  else if ['T', 'G', 'M', 'S'] <+: name then "TGMS (Co-ed)"
  else if ['P', 'M', 'S', 'H', 'R', 'I'] <+: name then "PMSHRI (Co-ed)"
  else "Other"

/-- The canonical column names, the values of `COLUMN_MAPPING`
(source lines 12-28). -/
def column_mapping_values : List String :=
  ["sl_no", "school_name", "enrolled_students", "vacant_seats", "drinking_water",
   "ro_plant", "class_rooms_available", "class_rooms_required", "dormitories_available",
   "dormitories_required", "toilets_functional_available", "toilets_required",
   "bathrooms_available", "bathrooms_required", "dual_desk_available",
   "dual_desk_required", "computers_available", "internet_facility",
   "dining_tables_available", "dining_tables_required", "cots_available",
   "cots_required", "matresses_available", "matresses_required", "blankets_available",
   "blankets_required", "swh_available", "swh_required", "ifp_panels_available",
   "vacancy_count", "remarks"]

/-- The columns cleaned by the Yes/No pass (source line 51). -/
def yes_no_cols : List String :=
  ["drinking_water", "ro_plant", "internet_facility", "swh_available", "swh_required"]

/-- The columns subtracted from the numeric pass (source line 58). -/
def numeric_excluded : List String :=
  ["sl_no", "school_name", "drinking_water", "ro_plant", "internet_facility", "remarks"]

/-- The columns cleaned by the numeric pass:
`set(COLUMN_MAPPING.values()) - set(numeric_excluded)` (source line 58; the
set difference is modelled as a filtered list — only membership matters). -/
def numeric_cols : List String :=
  column_mapping_values.filter fun c => !(numeric_excluded.contains c)

/-- A cleaned cell is either text or an integer. -/
inductive CellValue
  | str (s : String)
  | int (n : Int)
deriving DecidableEq

/-- The full per-cell cleaning pipeline of `load_and_clean_data` for one
column (source lines 51-62): the Yes/No pass (lines 52-55) runs first over
`yes_no_cols`, then the numeric pass (lines 59-62) runs over
`numeric_cols`; a column in both lists is cleaned twice, in that order. -/
def cleanCell (col : String) (raw : String) : CellValue :=
  let v1 := if yes_no_cols.contains col then cleanYesNo raw else raw
  if numeric_cols.contains col then CellValue.int (cleanNumeric v1) else CellValue.str v1

/-- A cleaned school row, restricted to the fields the derived metrics and
KPIs read.  All numeric fields are post-cleaning values (integers). -/
structure SchoolRecord where
  school_name : String
  enrolled_students : Int
  vacant_seats : Int
  class_rooms_available : Int
  toilets_functional_available : Int
  bathrooms_available : Int
  dual_desk_available : Int
  cots_available : Int
  computers_available : Int
deriving DecidableEq

/-- `df['enrolled_students'].replace(0, np.nan)` (source line 66). -/
def enrolled_students_safe (r : SchoolRecord) : Option Int :=
  if r.enrolled_students = 0 then none else some r.enrolled_students

/-- `ratio_classrooms` (source line 69): available / enrolled-safe × 100. -/
def ratio_classrooms (r : SchoolRecord) : Option ℚ :=
  (enrolled_students_safe r).map fun e => (r.class_rooms_available : ℚ) / (e : ℚ) * 100

/-- `ratio_toilets` (source line 70). -/
def ratio_toilets (r : SchoolRecord) : Option ℚ :=
  (enrolled_students_safe r).map fun e => (r.toilets_functional_available : ℚ) / (e : ℚ) * 100

/-- `ratio_bathrooms` (source line 71). -/
def ratio_bathrooms (r : SchoolRecord) : Option ℚ :=
  (enrolled_students_safe r).map fun e => (r.bathrooms_available : ℚ) / (e : ℚ) * 100

/-- `ratio_desks` (source line 72): unscaled per-student ratio. -/
def ratio_desks (r : SchoolRecord) : Option ℚ :=
  (enrolled_students_safe r).map fun e => (r.dual_desk_available : ℚ) / (e : ℚ)

/-- `ratio_cots` (source line 73): unscaled per-student ratio. -/
def ratio_cots (r : SchoolRecord) : Option ℚ :=
  (enrolled_students_safe r).map fun e => (r.cots_available : ℚ) / (e : ℚ)

/-- `ratio_computers` (source line 74): unscaled per-student ratio. -/
def ratio_computers (r : SchoolRecord) : Option ℚ :=
  (enrolled_students_safe r).map fun e => (r.computers_available : ℚ) / (e : ℚ)

/-- The six derived ratio columns (`ratio_*`, source lines 69-74). -/
inductive RatioKind
  | classrooms | toilets | bathrooms | desks | cots | computers
deriving DecidableEq

def ratioOf : RatioKind → SchoolRecord → Option ℚ
  | .classrooms => ratio_classrooms
  | .toilets => ratio_toilets
  | .bathrooms => ratio_bathrooms
  | .desks => ratio_desks
  | .cots => ratio_cots
  | .computers => ratio_computers

def ratioKinds : List RatioKind :=
  [.classrooms, .toilets, .bathrooms, .desks, .cots, .computers]

/-- `ratios_df` (source line 243): keep the rows where none of the ratio
columns is `NaN` (`dropna` over the six `ratio_` columns; the
`enrolled_students` column of the subset is an integer column and is never
`NaN`). -/
def ratios_df (df : List SchoolRecord) : List SchoolRecord :=
  df.filter fun r => ratioKinds.all fun k => (ratioOf k r).isSome

/-- pandas ascending sort order on a possibly-`NaN` column
(`na_position='last'`). -/
def optLe (a b : Option ℚ) : Bool :=
  match a, b with
  | some x, some y => decide (x ≤ y)
  | some _, none => true
  | none, some _ => false
  | none, none => true

def insertAsc (k : RatioKind) (r : SchoolRecord) : List SchoolRecord → List SchoolRecord
  | [] => [r]
  | x :: xs =>
      if optLe (ratioOf k r) (ratioOf k x) then r :: x :: xs else x :: insertAsc k r xs

/-- `sort_values(by=ratio_col, ascending=True)` (source line 263), modelled
as insertion sort on the chosen ratio column. -/
def sortByRatioAsc (k : RatioKind) : List SchoolRecord → List SchoolRecord
  | [] => []
  | x :: xs => insertAsc k x (sortByRatioAsc k xs)

/-- The per-metric ranking (source line 263):
`ratios_df.sort_values(by=ratio_col, ascending=True).head(5)`. -/
def rankWorst5 (df : List SchoolRecord) (k : RatioKind) : List SchoolRecord :=
  (sortByRatioAsc k (ratios_df df)).take 5

/-- The ranking as the spec words it: select the records with a non-null
value of the chosen metric, sort ascending by it, return the first 5. -/
def rankWorst5Spec (df : List SchoolRecord) (k : RatioKind) : List SchoolRecord :=
  (sortByRatioAsc k (df.filter fun r => (ratioOf k r).isSome)).take 5

/-- The fulfillment summary built by `create_fulfillment_chart`
(source lines 109-133). -/
structure FulfillmentSummary where
  available_total : Int
  deficiency_total : Int
  total_need : Int
  fulfillment : ℚ
  breakdown : List (String × Int)
deriving DecidableEq

/-- `create_fulfillment_chart` (source lines 109-133): sums of the two
columns, `total_need = available + required_deficiency`, fulfillment
`available / total_need` guarded by `total_need > 0` (else `1.0`), and the
`{Status, Count}` breakdown filtered to positive counts
(`data[data['Count'] > 0]`, line 133). -/
def create_fulfillment_chart (df : List SchoolRecord)
    (colA colR : SchoolRecord → Int) : FulfillmentSummary :=
  let available := (df.map colA).sum
  let required_deficiency := (df.map colR).sum
  let total_need := available + required_deficiency
  let fulfillment_val : ℚ :=
    if total_need > 0 then (available : ℚ) / (total_need : ℚ) else 1
  let data := [("Deficient", required_deficiency), ("Available", available)]
  { available_total := available
    deficiency_total := required_deficiency
    total_need := total_need
    fulfillment := fulfillment_val
    breakdown := data.filter fun p => p.2 > 0 }

/-- KPI `total_schools` (source line 198): row count of the filtered frame. -/
def total_schools (df : List SchoolRecord) : Nat := df.length

/-- KPI `total_enrolled` (source line 199). -/
def total_enrolled (df : List SchoolRecord) : Int :=
  (df.map fun r => r.enrolled_students).sum

/-- KPI `total_vacant` (source line 200). -/
def total_vacant (df : List SchoolRecord) : Int :=
  (df.map fun r => r.vacant_seats).sum

/-- KPI `overall_vacancy_percent` (source lines 201-202):
`(total_vacant / total_capacity) * 100 if total_capacity > 0 else 0`. -/
def overall_vacancy_percent (df : List SchoolRecord) : ℚ :=
  let total_capacity := total_enrolled df + total_vacant df
  if total_capacity > 0 then
    (total_vacant df : ℚ) / (total_capacity : ℚ) * 100
  else 0

/-- A sample cleaned row, used by concrete test inputs. -/
def mkSchool (nm : String) (enr desks : Int) : SchoolRecord :=
  { school_name := nm, enrolled_students := enr, vacant_seats := 0,
    class_rooms_available := 1, toilets_functional_available := 1,
    bathrooms_available := 1, dual_desk_available := desks,
    cots_available := 1, computers_available := 1 }

/-- Six schools whose desk ratios are `[5, 1, 3, null, 2, 4]` (school D has
zero enrollment, so its ratios are all null). -/
def sixSchools : List SchoolRecord :=
  [mkSchool ("A") 1 5, mkSchool ("B") 1 1, mkSchool ("C") 1 3,
   mkSchool ("D") 0 7, mkSchool ("E") 1 2, mkSchool ("F") 1 4]

lemma mem_of_mem_pyStrip {c : Char} {l : List Char} (h : c ∈ pyStrip l) : c ∈ l := by
  unfold pyStrip at h
  rw [List.mem_reverse] at h
  have h2 := (List.dropWhile_sublist _).mem h
  rw [List.mem_reverse] at h2
  exact (List.dropWhile_sublist _).mem h2

lemma mem_numSeg {s : String} {c : Char} (h : c ∈ numSeg s) :
    keepNumChar c = true ∧ c ≠ '-' := by
  have h3 := mem_of_mem_pyStrip h
  have hd : c ∈ ((s.data.filter keepNumChar).takeWhile fun c => c ≠ '-') :=
    (List.takeWhile_prefix _).sublist.mem h3
  have hmem : c ∈ s.data.filter keepNumChar :=
    (List.takeWhile_prefix _).sublist.mem hd
  refine ⟨(List.mem_filter.mp hmem).2, ?_⟩
  have := List.mem_takeWhile_imp hd
  simpa using this

lemma pdToNumeric_numSeg (s : String) :
    pdToNumeric (numSeg s) = parseUnsigned (numSeg s) := by
  unfold pdToNumeric
  split
  · next rest heq =>
      have hm : ('-' : Char) ∈ numSeg s := by
        rw [heq]; exact List.mem_cons_self _ _
      exact absurd rfl (mem_numSeg hm).2
  · next rest heq =>
      have hm : ('+' : Char) ∈ numSeg s := by
        rw [heq]; exact List.mem_cons_self _ _
      have := (mem_numSeg hm).1
      exact absurd this (by decide)
  · rfl

lemma fracVal_nonneg : ∀ l : List Char, 0 ≤ fracVal l
  | [] => le_refl 0
  | c :: cs => by
      have ih := fracVal_nonneg cs
      have hc : (0 : ℚ) ≤ ((c.toNat - 48 : Nat) : ℚ) := Nat.cast_nonneg _
      unfold fracVal
      positivity

lemma digit_le {c : Char} (h : c.isDigit = true) : c.toNat - 48 ≤ 9 := by
  simp [Char.isDigit] at h
  have h2 : c.toNat ≤ 57 := h.2
  omega

lemma fracVal_lt_one : ∀ l : List Char, (∀ c ∈ l, c.isDigit = true) → fracVal l < 1
  | [], _ => by norm_num [fracVal]
  | c :: cs, h => by
      have ih := fracVal_lt_one cs (fun x hx => h x (List.mem_cons_of_mem _ hx))
      have hc : c.toNat - 48 ≤ 9 := digit_le (h c (List.mem_cons_self _ _))
      have hc' : ((c.toNat - 48 : Nat) : ℚ) ≤ 9 := by exact_mod_cast hc
      unfold fracVal
      rw [div_lt_one (by norm_num)]
      linarith

lemma truncQ_eq_floor {q : ℚ} (h : 0 ≤ q) : truncQ q = ⌊q⌋ := by
  rw [truncQ, Rat.floor_def]
  exact Int.tdiv_eq_ediv (Rat.num_nonneg.mpr h) (Int.natCast_nonneg _)

lemma truncQ_add_frac (n : Nat) (f : ℚ) (h0 : 0 ≤ f) (h1 : f < 1) :
    truncQ ((n : ℚ) + f) = (n : Int) := by
  rw [truncQ_eq_floor (by positivity)]
  rw [Int.floor_eq_iff]
  constructor
  · push_cast; linarith
  · push_cast; linarith

lemma count_after_sep (a : Char) :
    ∀ l : List Char, l.count a ≤ 1 → ((l.dropWhile fun c => c ≠ a).drop 1).count a = 0
  | [], _ => by simp
  | c :: t, h => by
      rw [List.count_cons] at h
      by_cases hc : c = a
      · subst hc
        simp at h
        have ht : t.count c = 0 := by omega
        simpa [List.dropWhile_cons] using ht
      · simp [hc] at h
        have := count_after_sep a t h
        simpa [List.dropWhile_cons, hc] using this

lemma cleanNumeric_eq_fast (s : String) : cleanNumeric s = cleanNumericFast s := by
  unfold cleanNumeric cleanNumericFast
  rw [pdToNumeric_numSeg, parseUnsigned]
  by_cases h : ((numSeg s).all fun c => c.isDigit || c == '.') ∧
      ((numSeg s).any Char.isDigit) ∧ (numSeg s).count '.' ≤ 1
  · rw [if_pos h, if_pos h]
    show truncQ _ = _
    apply truncQ_add_frac
    · exact fracVal_nonneg _
    · apply fracVal_lt_one
      intro c hc
      have hcount := count_after_sep '.' (numSeg s) h.2.2
      have hmem : c ∈ ((numSeg s).dropWhile fun c => c ≠ '.') :=
        (List.drop_sublist _ _).mem hc
      have hmem2 : c ∈ numSeg s := (List.dropWhile_sublist _).mem hmem
      have hdot : c ≠ '.' := by
        intro hceq
        subst hceq
        exact (List.count_eq_zero.mp hcount) hc
      have := h.1
      rw [List.all_eq_true] at this
      have hcd := this c hmem2
      simp only [Bool.or_eq_true, beq_iff_eq] at hcd
      rcases hcd with hd | hd
      · exact hd
      · exact absurd hd hdot
  · rw [if_neg h, if_neg h]

lemma clean_numeric_nonneg_aux (s : String) : 0 ≤ cleanNumeric s := by
  rw [cleanNumeric_eq_fast]
  unfold cleanNumericFast
  split_ifs
  · exact Int.natCast_nonneg _
  · exact le_refl 0

lemma ratioOf_isSome (k : RatioKind) (r : SchoolRecord) :
    (ratioOf k r).isSome = decide (r.enrolled_students ≠ 0) := by
  by_cases h : r.enrolled_students = 0 <;>
    cases k <;>
      simp [ratioOf, ratio_classrooms, ratio_toilets, ratio_bathrooms, ratio_desks,
        ratio_cots, ratio_computers, enrolled_students_safe, h]

lemma allKinds_isSome (r : SchoolRecord) :
    (ratioKinds.all fun k => (ratioOf k r).isSome) = decide (r.enrolled_students ≠ 0) := by
  by_cases h : r.enrolled_students = 0 <;> simp [ratioKinds, ratioOf_isSome, h]

lemma ratios_df_eq (df : List SchoolRecord) (k : RatioKind) :
    ratios_df df = df.filter fun r => (ratioOf k r).isSome := by
  unfold ratios_df
  apply List.filter_congr
  intro r _
  rw [allKinds_isSome, ratioOf_isSome]

/-- Claim C1: cleaning a Yes/No cell first lowercases and trims the text;
if the substring `"yes"` occurs in the result it returns `"yes"`;
otherwise, if the substring `"no"` occurs, it returns `"no"`; otherwise it
returns the trimmed lowercased text itself.  In particular clean of
`"  YES "` is `"yes"`, of `"No"` is `"no"`, and of `"N/A"` is `"n/a"`. -/
theorem clean_yesno_policy (s : String) :
    (cleanYesNo s = "yes" ↔ ['y', 'e', 's'] <:+: pyStrip (pyLower s.data)) ∧
    (cleanYesNo s = "no" ↔
      (['n', 'o'] <:+: pyStrip (pyLower s.data) ∧
        ¬ ['y', 'e', 's'] <:+: pyStrip (pyLower s.data))) ∧
    (¬ ['y', 'e', 's'] <:+: pyStrip (pyLower s.data) →
      ¬ ['n', 'o'] <:+: pyStrip (pyLower s.data) →
      cleanYesNo s = String.mk (pyStrip (pyLower s.data))) ∧
    cleanYesNo ("  YES ") = "yes" ∧ cleanYesNo ("No") = "no" ∧
    cleanYesNo ("N/A") = "n/a" := by
  refine ⟨?_, ?_, ?_, by decide, by decide, by decide⟩
  · simp only [cleanYesNo]
    split_ifs with h1 h2
    · exact iff_of_true rfl h1
    · exact iff_of_false (by decide) h1
    · refine iff_of_false (fun h => h1 ?_) h1
      have ht : pyStrip (pyLower s.data) = ['y', 'e', 's'] := congrArg String.data h
      rw [ht]
  · simp only [cleanYesNo]
    split_ifs with h1 h2
    · exact iff_of_false (by decide) (fun hb => hb.2 h1)
    · exact iff_of_true rfl ⟨h2, h1⟩
    · refine iff_of_false (fun h => h2 ?_) (fun hb => h2 hb.1)
      have ht : pyStrip (pyLower s.data) = ['n', 'o'] := congrArg String.data h
      rw [ht]
  · intro hy hn
    simp only [cleanYesNo]
    rw [if_neg hy, if_neg hn]

/-- Claim C2: cleaning a numeric cell removes every character that is not a
digit, period or hyphen, splits on hyphen keeping the first segment, splits
on the dollar separator keeping the first segment, parses the result as a
number defaulting to 0 when unparseable, and truncates to an integer.  In
particular clean of `"12-15 rooms"` is 12, of `"abc"` is 0, of `"$5"` is 5,
and of `""` is 0. -/
theorem clean_numeric_policy (s : String) :
    numSeg s =
      pyStrip (((s.data.filter keepNumChar).takeWhile fun c => c ≠ '-').takeWhile
        fun c => c ≠ '$') ∧
    (pdToNumeric (numSeg s) = none → cleanNumeric s = 0) ∧
    (∀ q : ℚ, pdToNumeric (numSeg s) = some q → cleanNumeric s = truncQ q) ∧
    cleanNumeric ("12-15 rooms") = 12 ∧ cleanNumeric ("abc") = 0 ∧
    cleanNumeric ("$5") = 5 ∧ cleanNumeric ("") = 0 := by
  refine ⟨rfl, ?_, ?_, by rw [cleanNumeric_eq_fast]; decide, by decide,
    by rw [cleanNumeric_eq_fast]; decide, by decide⟩
  · intro h
    unfold cleanNumeric
    rw [h]
  · intro q h
    unfold cleanNumeric
    rw [h]

/-- Claim C3: the numeric cleaning policy yields a non-negative integer for
every input string (every character of the parsed segment precedes the
first hyphen, so the parsed value carries no sign), hence
`enrolled_students` and all available/required count cells are non-negative
after cleaning; in particular clean of `"-5"` is 0. -/
theorem clean_numeric_nonneg (s : String) :
    0 ≤ cleanNumeric s ∧
    (∀ col raw n, cleanCell col raw = CellValue.int n → 0 ≤ n) ∧
    cleanNumeric ("-5") = 0 := by
  refine ⟨clean_numeric_nonneg_aux s, ?_, by decide⟩
  intro col raw n h
  unfold cleanCell at h
  split_ifs at h <;> simp only [CellValue.int.injEq] at h
  · rw [← h]
    exact clean_numeric_nonneg_aux _
  · rw [← h]
    exact clean_numeric_nonneg_aux _

/-- Claim C4 (code bug): the script declares the solar-heater columns
`swh_available`/`swh_required` Yes/No (line 51) but forgets to exclude them
from `numeric_cols` (line 58), so the numeric pass overwrites their cleaned
`"yes"`/`"no"` values with the integer 0; the three other Yes/No fields do
keep `"yes"`/`"no"`/passthrough as the claim states. -/
theorem swh_fields_numeric_overwrite :
    ("swh_available" ∈ yes_no_cols) ∧ ("swh_required" ∈ yes_no_cols) ∧
    ("swh_available" ∈ numeric_cols) ∧ ("swh_required" ∈ numeric_cols) ∧
    cleanCell ("swh_available") ("Yes") = CellValue.int 0 ∧
    cleanCell ("swh_required") ("No") = CellValue.int 0 ∧
    cleanCell ("drinking_water") ("Yes") = CellValue.str "yes" ∧
    cleanCell ("ro_plant") ("no ") = CellValue.str "no" ∧
    cleanCell ("internet_facility") ("N/A") = CellValue.str "n/a" := by
  decide

/-- Claim C5: department classification is total and mutually exclusive:
an ordered case-insensitive prefix test assigns exactly one of the four
tags (KGBV, else TGMS, else PMSHRI, else Other); `classify("KGBV
Nalgonda")` is `"KGBV (Girls)"` and `classify("Govt High School")` is
`"Other"`. -/
theorem department_classification (s : String) :
    (get_department s ∈ ["KGBV (Girls)", "TGMS (Co-ed)", "PMSHRI (Co-ed)", "Other"]) ∧
    (get_department s = "KGBV (Girls)" ↔ ['K', 'G', 'B', 'V'] <+: pyUpper s.data) ∧
    (get_department s = "TGMS (Co-ed)" ↔
      (¬ ['K', 'G', 'B', 'V'] <+: pyUpper s.data ∧ ['T', 'G', 'M', 'S'] <+: pyUpper s.data)) ∧
    (get_department s = "PMSHRI (Co-ed)" ↔
      (¬ ['K', 'G', 'B', 'V'] <+: pyUpper s.data ∧ ¬ ['T', 'G', 'M', 'S'] <+: pyUpper s.data ∧
        ['P', 'M', 'S', 'H', 'R', 'I'] <+: pyUpper s.data)) ∧
    (get_department s = "Other" ↔
      (¬ ['K', 'G', 'B', 'V'] <+: pyUpper s.data ∧ ¬ ['T', 'G', 'M', 'S'] <+: pyUpper s.data ∧
        ¬ ['P', 'M', 'S', 'H', 'R', 'I'] <+: pyUpper s.data)) ∧
    get_department ("KGBV Nalgonda") = "KGBV (Girls)" ∧
    get_department ("Govt High School") = "Other" := by
  refine ⟨?_, ?_, ?_, ?_, ?_, by decide, by decide⟩ <;>
    · simp only [get_department]
      split_ifs <;> simp_all

/-- Claim C6: for every school record, the derived ratios for classrooms,
toilets and bathrooms equal available/enrolled × 100, those for desks, cots
and computers equal available/enrolled unscaled, and every ratio is
null/undefined exactly when `enrolled_students` is 0 (the computation is a
total function into `Option ℚ`: it never raises and never produces an
infinite value). -/
theorem ratio_derivation (r : SchoolRecord) :
    (ratio_classrooms r = if r.enrolled_students = 0 then none else
      some ((r.class_rooms_available : ℚ) / (r.enrolled_students : ℚ) * 100)) ∧
    (ratio_toilets r = if r.enrolled_students = 0 then none else
      some ((r.toilets_functional_available : ℚ) / (r.enrolled_students : ℚ) * 100)) ∧
    (ratio_bathrooms r = if r.enrolled_students = 0 then none else
      some ((r.bathrooms_available : ℚ) / (r.enrolled_students : ℚ) * 100)) ∧
    (ratio_desks r = if r.enrolled_students = 0 then none else
      some ((r.dual_desk_available : ℚ) / (r.enrolled_students : ℚ))) ∧
    (ratio_cots r = if r.enrolled_students = 0 then none else
      some ((r.cots_available : ℚ) / (r.enrolled_students : ℚ))) ∧
    (ratio_computers r = if r.enrolled_students = 0 then none else
      some ((r.computers_available : ℚ) / (r.enrolled_students : ℚ))) ∧
    (∀ k : RatioKind, ratioOf k r = none ↔ r.enrolled_students = 0) := by
  have hk : ∀ k : RatioKind, ratioOf k r = none ↔ r.enrolled_students = 0 := by
    intro k
    by_cases h : r.enrolled_students = 0 <;>
      cases k <;>
        simp [ratioOf, ratio_classrooms, ratio_toilets, ratio_bathrooms, ratio_desks,
          ratio_cots, ratio_computers, enrolled_students_safe, h]
  by_cases h : r.enrolled_students = 0 <;>
    exact ⟨by simp [ratio_classrooms, enrolled_students_safe, h],
      by simp [ratio_toilets, enrolled_students_safe, h],
      by simp [ratio_bathrooms, enrolled_students_safe, h],
      by simp [ratio_desks, enrolled_students_safe, h],
      by simp [ratio_cots, enrolled_students_safe, h],
      by simp [ratio_computers, enrolled_students_safe, h], hk⟩

/-- Claim C7: the fulfillment calculator returns the two column sums, their
sum as `total_need`, `available_total / total_need` when `total_need > 0`
and `1.0` otherwise, and a breakdown from which zero-count categories are
omitted without changing the ratio; in particular fulfillment of
(available 80, deficiency 20) is 0.8 and of (0, 0) is 1.0. -/
theorem fulfillment_calculator (df : List SchoolRecord)
    (colA colR : SchoolRecord → Int) :
    (create_fulfillment_chart df colA colR).available_total = (df.map colA).sum ∧
    (create_fulfillment_chart df colA colR).deficiency_total = (df.map colR).sum ∧
    (create_fulfillment_chart df colA colR).total_need =
      (create_fulfillment_chart df colA colR).available_total +
        (create_fulfillment_chart df colA colR).deficiency_total ∧
    (create_fulfillment_chart df colA colR).fulfillment =
      (if (create_fulfillment_chart df colA colR).total_need > 0 then
        ((create_fulfillment_chart df colA colR).available_total : ℚ) /
          ((create_fulfillment_chart df colA colR).total_need : ℚ)
      else 1) ∧
    (create_fulfillment_chart df colA colR).breakdown =
      ([("Deficient", (create_fulfillment_chart df colA colR).deficiency_total),
        ("Available", (create_fulfillment_chart df colA colR).available_total)].filter
          fun p => p.2 > 0) ∧
    (create_fulfillment_chart [mkSchool ("G") 1 1] (fun _ => 80)
      (fun _ => 20)).fulfillment = 4 / 5 ∧
    (create_fulfillment_chart [] colA colR).fulfillment = 1 := by
  refine ⟨rfl, rfl, rfl, rfl, rfl, ?_, ?_⟩
  · show (if (100 : Int) > 0 then ((80 : Int) : ℚ) / ((100 : Int) : ℚ) else 1) = 4 / 5
    norm_num
  · show (if (0 : Int) > 0 then ((0 : Int) : ℚ) / ((0 : Int) : ℚ) else 1) = 1
    norm_num

/-- Claim C8: for every ratio metric the ranking reporter selects exactly
the records with a non-null value of that metric, sorts them ascending by
it, and returns the first 5 (the `dropna` over all six ratio columns keeps
the same rows as selecting on the chosen one, since all six are null
exactly on zero enrollment); for 6 schools with desk ratios
`[5, 1, 3, null, 2, 4]` the output has ratios `[1, 2, 3, 4, 5]` in
ascending order, the null entry excluded. -/
theorem ranking_worst5 (df : List SchoolRecord) (k : RatioKind) :
    rankWorst5 df k = rankWorst5Spec df k ∧
    (rankWorst5 sixSchools RatioKind.desks).map (fun r => ratioOf RatioKind.desks r) =
      [some 1, some 2, some 3, some 4, some 5] := by
  constructor
  · unfold rankWorst5 rankWorst5Spec
    rw [ratios_df_eq df k]
  · norm_num [rankWorst5, ratios_df, ratioKinds, ratioOf, ratio_desks, ratio_classrooms,
      ratio_toilets, ratio_bathrooms, ratio_cots, ratio_computers, enrolled_students_safe,
      sortByRatioAsc, insertAsc, optLe, sixSchools, mkSchool, List.filter]

/-- Claim C9: a school with `enrolled_students = 0` is excluded from the
ratio table (`ratios_df`) but still counted in the aggregates: for 3
schools of which exactly one has zero enrollment, `total_schools` is 3, the
ratio table has exactly 2 rows, and the overall vacancy percent is computed
from all 3 schools' enrolled and vacant sums. -/
theorem zero_enrollment_handling (a b c : SchoolRecord)
    (ha : a.enrolled_students = 0) (hb : b.enrolled_students ≠ 0)
    (hc : c.enrolled_students ≠ 0) :
    total_schools [a, b, c] = 3 ∧
    (ratios_df [a, b, c]).length = 2 ∧
    total_enrolled [a, b, c] =
      a.enrolled_students + b.enrolled_students + c.enrolled_students ∧
    total_vacant [a, b, c] = a.vacant_seats + b.vacant_seats + c.vacant_seats ∧
    overall_vacancy_percent [a, b, c] =
      (if total_enrolled [a, b, c] + total_vacant [a, b, c] > 0 then
        (total_vacant [a, b, c] : ℚ) /
          ((total_enrolled [a, b, c] + total_vacant [a, b, c] : Int) : ℚ) * 100
      else 0) := by
  refine ⟨rfl, ?_, ?_, ?_, rfl⟩
  · simp [ratios_df, List.filter, allKinds_isSome, ha, hb, hc]
  · simp [total_enrolled]
    ring
  · simp [total_vacant]
    ring

/-- Claim C9 witness: a concrete 3-school input, one school with zero
enrollment. -/
theorem zero_enrollment_handling_witness :
    total_schools [mkSchool ("WA") 0 1, mkSchool ("WB") 10 1, mkSchool ("WC") 20 1] = 3 ∧
    (ratios_df [mkSchool ("WA") 0 1, mkSchool ("WB") 10 1, mkSchool ("WC") 20 1]).length = 2 := by
  have h := zero_enrollment_handling (mkSchool ("WA") 0 1) (mkSchool ("WB") 10 1)
    (mkSchool ("WC") 20 1) rfl (by decide) (by decide)
  exact ⟨h.1, h.2.1⟩

/-- Claim C10: whenever the filtered records' total capacity
(enrolled + vacant) is 0 — including the empty set — the overall vacancy
percent is defined and equals 0 (the division is guarded by the
`total_capacity > 0` test and the function is total: it never raises). -/
theorem vacancy_zero_capacity (df : List SchoolRecord)
    (h : total_enrolled df + total_vacant df = 0) :
    overall_vacancy_percent df = 0 := by
  simp only [overall_vacancy_percent]
  rw [h]
  norm_num

/-- Claim C10 witness: the empty record set has zero capacity and vacancy
percent 0. -/
theorem vacancy_zero_capacity_witness : overall_vacancy_percent [] = 0 :=
  vacancy_zero_capacity [] rfl

end ResidentialSchools
